import Mathlib

/-!
Verification of the CSV download/update subsystem of
ComfyUI-Autocomplete-Plus (`modules/downloader.py`, `modules/api.py`).

The embedding models time instants as integers (seconds), the local
filesystem as a map from paths to file sizes (`none` = file absent),
and the remote host / HTTP layer as oracles passed in as parameters
(the real code performs network I/O there).  Timestamp fields stored in
the JSON metadata are abstracted by `TsField`: JSON `null`, a string
that `datetime.fromisoformat` parses (abstracted to its instant value),
or a string it rejects.  Filesystem delete/write operations are
modelled as succeeding (in the source a failing `os.remove` is caught
and only logged).
-/

namespace AutocompletePlus

/-- A stored timestamp field of the JSON metadata document:
`null` is JSON null (Python `None`), `valid t` a string that
`datetime.fromisoformat` parses to the instant `t`, and `invalid` a
string it rejects (including the empty string, which behaves the same
as `invalid` on every path of the source: falsy under `.get(...)`
truthiness and a `ValueError` under `fromisoformat`). -/
inductive TsField where
  | null
  | valid (t : Int)
  | invalid
  deriving DecidableEq, Repr

/-- The instant carried by a parseable timestamp field, if any. -/
def tsVal : TsField → Option Int
  | .valid t => some t
  | _ => none

/-- Python `x is not None` on a stored timestamp field. -/
def tsIsNotNone : TsField → Bool
  | .null => false
  | _ => true

/-- One entry of `csv_files` in the metadata document
(`file_name`, `last_download`, `last_modified_on_hf`).  `file_name` is
`none` when the key is missing from the entry. -/
structure FileMeta where
  file_name : Option String
  last_download : TsField
  last_modified_on_hf : TsField
  deriving DecidableEq, Repr

/-- One entry of `hf_datasets` in the metadata document. -/
structure DatasetMeta where
  hf_dataset_id : String
  last_remote_check_timestamp : TsField
  csv_files : List FileMeta
  deriving DecidableEq, Repr

/-- The metadata document (`csv_meta.json`): a version tag and the
dataset entries. -/
structure Metadata where
  version : Int
  hf_datasets : List DatasetMeta
  deriving DecidableEq, Repr

/-- `DEFAULT_CSV_METADATA` from `downloader.py`. -/
def DEFAULT_CSV_METADATA : Metadata :=
  { version := 1
    hf_datasets := [
      { hf_dataset_id := "newtextdoc1111/danbooru-tag-csv"
        last_remote_check_timestamp := .null
        csv_files := [
          { file_name := some "danbooru_tags.csv"
            last_download := .null
            last_modified_on_hf := .null }
          , { file_name := some "danbooru_tags_cooccurrence.csv"
              last_download := .null
              last_modified_on_hf := .null } ] } ] }

def CSV_META_FILE_NAME : String := "csv_meta.json"

def DATA_DIR : String := "data"

def TEMP_DOWNLOAD_DIR : String := DATA_DIR ++ "/.download"

/-- `get_file_path`: the local path of a tracked file. -/
def get_file_path (file_name : String) : String :=
  DATA_DIR ++ "/" ++ file_name

/-- `get_temp_download_path`: the temporary download path of a file. -/
def get_temp_download_path (file_name : String) : String :=
  TEMP_DOWNLOAD_DIR ++ "/" ++ file_name

/-- The local filesystem: maps a path to the size of the file stored
there, `none` when no file exists at that path. -/
def FileSystem : Type := String → Option Nat

/-- `check_file_valid`: the file exists and `os.path.getsize` is
positive. -/
def check_file_valid (fs : FileSystem) (file_path : String) : Bool :=
  match fs file_path with
  | some n => decide (0 < n)
  | none => false

/-- Deleting a file (`os.remove`; a no-op when absent, matching the
guarded `if os.path.exists: os.remove` of the source). -/
def fsRemove (fs : FileSystem) (p : String) : FileSystem :=
  fun q => if q = p then none else fs q

/-- Writing a file of a given size at a path. -/
def fsWrite (fs : FileSystem) (p : String) (size : Nat) : FileSystem :=
  fun q => if q = p then some size else fs q

/-- What the metadata store file can present to `_load_metadata`:
absent; unreadable with an `IOError` or `JSONDecodeError`; present but
holding bytes that are not valid UTF-8 (the file is opened with
`encoding='utf-8'`, so `json.load` then raises `UnicodeDecodeError`);
readable JSON that is not a dict; or a parsed document (whose version
field may or may not match; a document missing the version key behaves
as a mismatched one since `metadata.get("version") != 1` then
holds). -/
inductive MetaFileState where
  | absent
  | unreadable
  | undecodableBytes
  | notDict
  | parsedDoc (doc : Metadata)
  deriving Repr

/-- `_load_metadata`: on the non-error paths returns the loaded
document together with the `csv_meta_file_exists_at_start` flag (set
only on a successful, version-matching load; the default document is
returned for an absent file, a caught `IOError`/`JSONDecodeError`, a
non-dict JSON value and a version mismatch).  On a file of
undecodable bytes, `json.load` raises `UnicodeDecodeError`, which the
handler `except (IOError, json.JSONDecodeError)` at line 96 does not
catch: the exception escapes `_load_metadata`, modelled as the error
result. -/
def _load_metadata : MetaFileState → Except String (Metadata × Bool)
  | .absent => .ok (DEFAULT_CSV_METADATA, false)
  | .unreadable => .ok (DEFAULT_CSV_METADATA, false)
  | .undecodableBytes => .error "UnicodeDecodeError"
  | .notDict => .ok (DEFAULT_CSV_METADATA, false)
  | .parsedDoc doc =>
    if doc.version ≠ DEFAULT_CSV_METADATA.version then
      .ok (DEFAULT_CSV_METADATA, false)
    else
      .ok (doc, true)

/-- `_save_metadata` with the store write succeeding: the document is
serialized to disk; `json.dump` through a file opened with
`encoding='utf-8'` always writes valid UTF-8, and the dump of the
document parses back to the same dict. -/
def _save_metadata (metadata : Metadata) : MetaFileState :=
  .parsedDoc metadata

/-- `timedelta(days=7)` in seconds. -/
def COOLDOWN_SECONDS : Int := 7 * 24 * 60 * 60

/-- Lines 216-224 of `downloader.py`: whether the remote check is
performed.  `perform_hf_check` starts `True`; a truthy stored
timestamp that parses and is less than 7 days before `now_utc` turns
it off; an unparseable timestamp leaves it on (the `except` arm). -/
def performCheckDecision (last_remote_check_timestamp : TsField)
    (now_utc : Int) : Bool :=
  match last_remote_check_timestamp with
  | .null => true
  | .invalid => true
  | .valid t => if now_utc - t < COOLDOWN_SECONDS then false else true

/-- Python truthiness of the `file_name` metadata value: the name when
present and non-empty, `none` otherwise (`if not file_name: ...`). -/
def fileNameTruthy (e : FileMeta) : Option String :=
  match e.file_name with
  | some nm => if nm = "" then none else some nm
  | none => none

/-- The probe loop of `_check_new_csv_from_hf_dataset` (lines
231-243): for each entry, probe the remote last-modified time; on
success store it in `last_modified_on_hf`, on a missing name or a
failed probe clear the all-succeeded flag.  Returns the updated
entries and the flag `updated_all_hf_timestamps_successfully`. -/
def checkFilesLoop (probe : String → Option Int) :
    List FileMeta → List FileMeta × Bool
  | [] => ([], true)
  | e :: rest =>
    let step : FileMeta × Bool :=
      match fileNameTruthy e with
      | none => (e, false)
      | some nm =>
        match probe nm with
        | some lm => ({ e with last_modified_on_hf := .valid lm }, true)
        | none => (e, false)
    let r := checkFilesLoop probe rest
    (step.1 :: r.1, step.2 && r.2)

/-- `_check_new_csv_from_hf_dataset`: skip entirely when the cooldown
gate says so; otherwise run the probe loop and advance
`last_remote_check_timestamp` to `now_utc` exactly when every probe
succeeded.  The remote probe (`_get_hf_file_last_modified`) is the
oracle `probe`, returning `none` for any network error, timeout,
non-success status or missing header. -/
def _check_new_csv_from_hf_dataset (probe : String → Option Int)
    (dataset_meta : DatasetMeta) (now_utc : Int) : DatasetMeta :=
  if performCheckDecision dataset_meta.last_remote_check_timestamp now_utc then
    let r := checkFilesLoop probe dataset_meta.csv_files
    { dataset_meta with
      csv_files := r.1
      last_remote_check_timestamp :=
        if r.2 then .valid now_utc
        else dataset_meta.last_remote_check_timestamp }
  else
    dataset_meta

/-- Outcome of one HTTP transfer attempt in
`_download_file_with_progress_sync`: either the whole body of `size`
bytes was streamed and the atomic move over the final path succeeded,
or some step raised (`URLError`/`OSError`/`TimeoutError`) after the
`Content-Length` header had been seen as `total_size` (`none` when the
header was absent or empty) and `downloaded_size` bytes had been
streamed to the temporary file. -/
inductive TransferOutcome where
  | success (size : Nat)
  | failure (total_size : Option Nat) (downloaded_size : Nat)
  deriving DecidableEq, Repr

/-- Lines 200-202 of `downloader.py`: the condition under which the
failure handler removes the file at the final path.  Mirrors
`file_size_at_final == 0 or (total_size and total_size > 0 and
file_size_at_final < total_size) or (not total_size and
downloaded_size > 0 and file_size_at_final < downloaded_size)`
with Python truthiness of `total_size` (falsy for `None` and `0`). -/
def final_file_should_remove (total_size : Option Nat)
    (downloaded_size file_size_at_final : Nat) : Bool :=
  decide (file_size_at_final = 0)
  || (match total_size with
      | some ts => decide (ts ≠ 0) && decide (0 < ts)
          && decide (file_size_at_final < ts)
      | none => false)
  || ((match total_size with
       | some ts => decide (ts = 0)
       | none => true)
      && decide (0 < downloaded_size)
      && decide (file_size_at_final < downloaded_size))

/-- `_download_file_with_progress_sync`: on success the streamed body
is written at the temporary path (any stale temporary file having been
removed first) and then moved over the final path, and the entry's
`last_download` is set to this invocation's clock reading `now_utc`;
on failure the temporary file is removed if present, the final file is
removed when `final_file_should_remove` holds of its size, and the
metadata entry is left untouched.  Returns the filesystem after the
attempt and the (possibly updated) metadata entry. -/
def _download_file_with_progress_sync (fs : FileSystem)
    (file_name : String) (metadata_entry : FileMeta)
    (outcome : TransferOutcome) (now_utc : Int) :
    FileSystem × FileMeta :=
  let final_path := get_file_path file_name
  let temp_path := get_temp_download_path file_name
  match outcome with
  | .success size =>
    let fs1 := fsWrite (fsRemove fs temp_path) temp_path size
    let fs2 := fsWrite (fsRemove fs1 temp_path) final_path size
    (fs2, { metadata_entry with last_download := .valid now_utc })
  | .failure total_size downloaded_size =>
    let fs1 := fsRemove fs temp_path
    let fs2 :=
      match fs1 final_path with
      | none => fs1
      | some file_size_at_final =>
        if final_file_should_remove total_size downloaded_size
            file_size_at_final then
          fsRemove fs1 final_path
        else fs1
    (fs2, metadata_entry)

/-- `check_csv_file_should_download`: the download-due decision for
one tracked file.  `csv_meta_file_exists_at_start` is the flag set by
`_load_metadata`; `fs` is the filesystem the two `check_file_valid`
calls consult.  Returns the reason (or `none`) together with the
entry, whose two timestamp fields are reset to null on the
invalid-timestamp branch. -/
def check_csv_file_should_download (csv_meta_file_exists_at_start : Bool)
    (fs : FileSystem) (file_meta_entry : FileMeta) (file_name : String) :
    Option String × FileMeta :=
  let local_file_path := get_file_path file_name
  if !csv_meta_file_exists_at_start then
    (some (CSV_META_FILE_NAME ++ " was not found initially. Forcing download of "
        ++ file_name ++ "."), file_meta_entry)
  else if !check_file_valid fs local_file_path then
    (some ("File " ++ file_name ++ " is missing or empty locally."),
      file_meta_entry)
  else
    match file_meta_entry.last_download, file_meta_entry.last_modified_on_hf with
    | .valid last_download_dt, .valid hf_modified_dt =>
      if hf_modified_dt > last_download_dt then
        (some ("Remote file " ++ file_name ++ " is newer (HF: "
            ++ toString last_download_dt ++ ", Local Download: "
            ++ toString hf_modified_dt ++ ")."), file_meta_entry)
      else if !check_file_valid fs local_file_path
          && tsIsNotNone file_meta_entry.last_download then
        (some ("File " ++ file_name
            ++ " is missing or empty locally, but last download timestamp exists. Retrying."),
          file_meta_entry)
      else
        (none, file_meta_entry)
    | _, _ =>
      (some ("Invalid timestamp format for " ++ file_name
          ++ ". Forcing download to ensure integrity."),
        { file_meta_entry with
          last_download := .null, last_modified_on_hf := .null })

/-- `_download_csv_files_if_needed`: iterate the dataset's entries;
skip entries whose `file_name` is missing or empty; otherwise evaluate
the download-due decision and, when it yields a reason, run the
download executor (`outcomeFor` is the transfer oracle keyed by file
name, `now` the clock reading stamped on a successful download).
Returns the filesystem after all downloads, the updated entries, and
the list of file names that were flagged for download, in order. -/
def downloadLoop (csv_meta_file_exists_at_start : Bool)
    (outcomeFor : String → TransferOutcome) (now : Int) :
    FileSystem → List FileMeta → FileSystem × List FileMeta × List String
  | fs, [] => (fs, [], [])
  | fs, e :: rest =>
    match fileNameTruthy e with
    | none =>
      let r := downloadLoop csv_meta_file_exists_at_start outcomeFor now fs rest
      (r.1, e :: r.2.1, r.2.2)
    | some file_name =>
      let c := check_csv_file_should_download csv_meta_file_exists_at_start
        fs e file_name
      match c.1 with
      | none =>
        let r := downloadLoop csv_meta_file_exists_at_start outcomeFor now fs rest
        (r.1, c.2 :: r.2.1, r.2.2)
      | some _ =>
        let d := _download_file_with_progress_sync fs file_name c.2
          (outcomeFor file_name) now
        let r := downloadLoop csv_meta_file_exists_at_start outcomeFor now d.1 rest
        (r.1, d.2 :: r.2.1, file_name :: r.2.2)

/-- One pass of `run_check_and_download`'s dataset loop body for a
single dataset: the remote check followed by the download pass.
`probeFor` is the remote-probe oracle keyed by dataset id and file
name; `outcomeFor` the transfer oracle. -/
def processDataset (csv_meta_file_exists_at_start : Bool)
    (probeFor : String → String → Option Int)
    (outcomeFor : String → String → TransferOutcome) (now : Int)
    (fs : FileSystem) (dataset_meta : DatasetMeta) :
    FileSystem × DatasetMeta :=
  let ds1 := _check_new_csv_from_hf_dataset (probeFor dataset_meta.hf_dataset_id)
    dataset_meta now
  let r := downloadLoop csv_meta_file_exists_at_start
    (outcomeFor ds1.hf_dataset_id) now fs ds1.csv_files
  (r.1, { ds1 with csv_files := r.2.1 })

/-- The dataset loop of `run_check_and_download`. -/
def processDatasets (csv_meta_file_exists_at_start : Bool)
    (probeFor : String → String → Option Int)
    (outcomeFor : String → String → TransferOutcome) (now : Int) :
    FileSystem → List DatasetMeta → FileSystem × List DatasetMeta
  | fs, [] => (fs, [])
  | fs, ds :: rest =>
    let p := processDataset csv_meta_file_exists_at_start probeFor outcomeFor
      now fs ds
    let r := processDatasets csv_meta_file_exists_at_start probeFor outcomeFor
      now p.1 rest
    (r.1, p.2 :: r.2)

/-- `run_check_and_download` (lines 298-311): one full coordinator
invocation — per-dataset remote check and download pass, then
`_save_metadata`.  Returns the filesystem and in-memory metadata after
the run, and the persisted store state. -/
def run_check_and_download (csv_meta_file_exists_at_start : Bool)
    (probeFor : String → String → Option Int)
    (outcomeFor : String → String → TransferOutcome) (now : Int)
    (fs : FileSystem) (metadata : Metadata) :
    (FileSystem × Metadata) × MetaFileState :=
  let r := processDatasets csv_meta_file_exists_at_start probeFor outcomeFor
    now fs metadata.hf_datasets
  let metadata' := { metadata with hf_datasets := r.2 }
  ((r.1, metadata'), _save_metadata metadata')

/-- Result of a Python call: a value, or an uncaught `TypeError`
raised at the call site. -/
inductive PyCallResult (α : Type) where
  | ok (val : α)
  | typeError (msg : String)

/-- Calling `run_check_and_download` with an optional `force_check`
keyword argument, as `api.py` line 171 does
(`downloader.run_check_and_download(force_check=True)`).  The
definition of `run_check_and_download` at lines 298-311 of
`downloader.py` declares no parameter besides `self`, so Python raises
`TypeError` for any keyword call before the function body — and hence
any remote probe or download — runs. -/
def run_check_and_download_call (force_check : Option Bool)
    (csv_meta_file_exists_at_start : Bool)
    (probeFor : String → String → Option Int)
    (outcomeFor : String → String → TransferOutcome) (now : Int)
    (fs : FileSystem) (metadata : Metadata) :
    PyCallResult ((FileSystem × Metadata) × MetaFileState) :=
  match force_check with
  | some _ =>
    .typeError "run_check_and_download() got an unexpected keyword argument"
  | none =>
    .ok (run_check_and_download csv_meta_file_exists_at_start probeFor
      outcomeFor now fs metadata)

/-- The condition for control to reach, and take, the final retry
branch of `check_csv_file_should_download` (lines 292-294): the
earlier guards were all passed (metadata existed at start, first
`check_file_valid` true, both timestamps parsed, remote not strictly
newer) and the branch's own test
(`not check_file_valid(...) and ...get("last_download") is not None`)
holds, over the same filesystem `fs` for both `check_file_valid`
calls. -/
def retryBranchTaken (csv_meta_file_exists_at_start : Bool)
    (fs : FileSystem) (file_meta_entry : FileMeta) (file_name : String) : Bool :=
  csv_meta_file_exists_at_start
  && check_file_valid fs (get_file_path file_name)
  && (match file_meta_entry.last_download, file_meta_entry.last_modified_on_hf with
      | .valid last_download_dt, .valid hf_modified_dt =>
        !decide (hf_modified_dt > last_download_dt)
        && (!check_file_valid fs (get_file_path file_name)
            && tsIsNotNone file_meta_entry.last_download)
      | _, _ => false)

/-- Modelled from the spec: the spec's characterisation of a final
file whose size is inconsistent with a full download — "zero bytes, or
smaller than a known Content-Length, or smaller than the amount
actually streamed when Content-Length was unknown" — to be compared
with the source's removal condition `final_file_should_remove`. -/
def finalFileInconsistentClaim (total_size : Option Nat)
    (downloaded_size file_size : Nat) : Prop :=
  file_size = 0
  ∨ (∃ ts, total_size = some ts ∧ file_size < ts)
  ∨ (total_size = none ∧ file_size < downloaded_size)

/-- Successive coordinator invocations over one dataset: each carries
its clock reading `now`, its remote-probe oracle and its transfer
oracle, and runs the remote check followed by the download pass
(`processDataset`), threading the filesystem and the dataset's
metadata.  Returns the trace of states after each invocation. -/
def datasetCycles (csv_meta_file_exists_at_start : Bool) :
    List (Int × (String → String → Option Int) × (String → String → TransferOutcome)) →
    FileSystem → DatasetMeta → List (FileSystem × DatasetMeta)
  | [], _, _ => []
  | inv :: rest, fs, ds =>
    let p := processDataset csv_meta_file_exists_at_start inv.2.1 inv.2.2
      inv.1 fs ds
    p :: datasetCycles csv_meta_file_exists_at_start rest p.1 p.2

/-- A dataset entry used as concrete input in witnesses. -/
def dsEx : DatasetMeta :=
  { hf_dataset_id := "newtextdoc1111/danbooru-tag-csv"
    last_remote_check_timestamp := .null
    csv_files := [
      { file_name := some "danbooru_tags.csv"
        last_download := .null
        last_modified_on_hf := .null } ] }

/-- A file entry whose `last_download` is null while the remote
timestamp parses, used as concrete input in witnesses. -/
def entryEx : FileMeta :=
  { file_name := some "danbooru_tags.csv"
    last_download := .null
    last_modified_on_hf := .valid 5 }

/-- A filesystem holding a valid 3-byte final file and a stale 2-byte
temporary file for `danbooru_tags.csv`, used as concrete input in
witnesses. -/
def fsEx : FileSystem := fun p =>
  if p = get_file_path "danbooru_tags.csv" then some 3
  else if p = get_temp_download_path "danbooru_tags.csv" then some 2
  else none

/-- A metadata document whose single dataset was remote-checked at
instant 0, used as the concrete failing input for the forced-check
call. -/
def metaRecentCheckEx : Metadata :=
  { version := 1
    hf_datasets := [
      { dsEx with last_remote_check_timestamp := .valid 0 } ] }

/-- Two concrete coordinator invocations with non-decreasing clock
readings 100 and 200: the first's probes all succeed, the second's all
fail, used as concrete input in witnesses. -/
def invsEx :
    List (Int × (String → String → Option Int) × (String → String → TransferOutcome)) :=
  [ (100, fun _ _ => some 50, fun _ _ => .success 10)
  , (200, fun _ _ => none, fun _ _ => .success 10) ]

/-- The dataset's `last_remote_check_timestamp` before the first
invocation and after each successive invocation of the coordinator on
it. -/
def cycleStamps (csv_meta_file_exists_at_start : Bool)
    (invs : List (Int × (String → String → Option Int) × (String → String → TransferOutcome)))
    (fs : FileSystem) (ds : DatasetMeta) : List TsField :=
  ds.last_remote_check_timestamp ::
    (datasetCycles csv_meta_file_exists_at_start invs fs ds).map
      (fun p => p.2.last_remote_check_timestamp)

/-! ## Helper lemmas -/

/-- The temporary download path of a file never coincides with its
final path (the two directory components have different lengths). -/
theorem file_path_ne_temp_path (file_name : String) :
    get_file_path file_name ≠ get_temp_download_path file_name := by
  intro h
  have h2 := congrArg String.length h
  simp only [get_file_path, get_temp_download_path, TEMP_DOWNLOAD_DIR,
    DATA_DIR, String.length_append] at h2
  have h3 : "data".length + "/".length + file_name.length
      = "data".length + "/.download".length + "/".length + file_name.length := h2
  have h4 : (4 : Nat) + 1 + file_name.length
      = 4 + 10 + 1 + file_name.length := h3
  omega

/-! ## C8: the metadata load can in fact fail fatally -/

/-- C8: evaluating the code at the failing input.  A metadata file
whose bytes are not valid UTF-8 is an unreadable (corrupt) store, yet
`_load_metadata` does not return the default document for it: the
`UnicodeDecodeError` raised by `json.load` is not an `IOError` or a
`JSONDecodeError`, escapes the handler at line 96 and propagates
fatally — contrary to the claim (and to the function's own docstring,
"Returns default if not found or error").  The second conjunct shows
the caught-error path behaves as the claim says, so the undecodable
path is the one slip. -/
theorem load_metadata_unicode_decode_error_fatal :
    _load_metadata .undecodableBytes = .error "UnicodeDecodeError"
    ∧ _load_metadata .unreadable = .ok (DEFAULT_CSV_METADATA, false) :=
  ⟨rfl, rfl⟩

/-! ## C9: save/load round trip -/

/-- C9: saving the in-memory metadata document and loading it back
yields the same document (all fields equal) with
`existedAtStart = true`, given the store write and read succeed and
the document carries the expected schema version (which every
in-memory document produced by `_load_metadata` does). -/
theorem save_then_load_roundtrip (doc : Metadata)
    (h : doc.version = DEFAULT_CSV_METADATA.version) :
    _load_metadata (_save_metadata doc) = .ok (doc, true) := by
  simp [_load_metadata, _save_metadata, h]

/-- Witness for C9 at the default document. -/
theorem save_then_load_roundtrip_witness :
    DEFAULT_CSV_METADATA.version = DEFAULT_CSV_METADATA.version
    ∧ _load_metadata (_save_metadata DEFAULT_CSV_METADATA)
      = .ok (DEFAULT_CSV_METADATA, true) :=
  ⟨rfl, save_then_load_roundtrip DEFAULT_CSV_METADATA rfl⟩

/-! ## C6: the executor stamps `last_download` exactly on success -/

/-- C6: the download executor returns the metadata entry with
`last_download` set to the invocation's clock reading exactly when the
transfer and the atomic move succeed (leaving `last_modified_on_hf`
untouched), and returns the entry completely unchanged on any transfer
failure. -/
theorem download_stamps_last_download_iff_success (fs : FileSystem)
    (file_name : String) (entry : FileMeta) (outcome : TransferOutcome)
    (now_utc : Int) :
    (_download_file_with_progress_sync fs file_name entry outcome now_utc).2
      = (match outcome with
         | .success _ => { entry with last_download := .valid now_utc }
         | .failure _ _ => entry) := by
  cases outcome <;> rfl

/-! ## C4: a missing metadata file at start forces every download -/

/-- C4: when the metadata file did not exist at session start, the
download-due decision returns a reason for any file regardless of
local artifact validity or stored timestamps (leaving the entry
unchanged), and the download pass flags exactly the tracked files of
the run, each exactly once, in order. -/
theorem no_metadata_at_start_forces_all_downloads (fs : FileSystem)
    (entry : FileMeta) (file_name : String)
    (outcomeFor : String → TransferOutcome) (now : Int)
    (files : List FileMeta) :
    (check_csv_file_should_download false fs entry file_name).1.isSome = true
    ∧ (check_csv_file_should_download false fs entry file_name).2 = entry
    ∧ (downloadLoop false outcomeFor now fs files).2.2
        = files.filterMap fileNameTruthy := by
  refine ⟨rfl, rfl, ?_⟩
  induction files generalizing fs with
  | nil => rfl
  | cons e rest ih =>
    cases hnm : fileNameTruthy e with
    | none => simp [downloadLoop, hnm, ih]
    | some nm => simp [downloadLoop, hnm, check_csv_file_should_download, ih]

/-! ## C5: unparseable timestamps self-heal and force a download -/

/-- C5: for a file whose metadata existed at start and whose local
artifact is present and non-empty (so rules 1 and 2 do not fire), if
either stored timestamp is missing or fails to parse as an instant,
the decision fires the invalid-timestamp rule: it returns its download
reason and resets both stored timestamps to empty. -/
theorem invalid_timestamps_reset_and_download (fs : FileSystem)
    (entry : FileMeta) (file_name : String)
    (hvalid : check_file_valid fs (get_file_path file_name) = true)
    (hbad : tsVal entry.last_download = none
      ∨ tsVal entry.last_modified_on_hf = none) :
    (check_csv_file_should_download true fs entry file_name).1
      = some ("Invalid timestamp format for " ++ file_name
          ++ ". Forcing download to ensure integrity.")
    ∧ (check_csv_file_should_download true fs entry file_name).2.last_download
      = .null
    ∧ (check_csv_file_should_download true fs entry
        file_name).2.last_modified_on_hf = .null := by
  cases hld : entry.last_download <;>
    cases hhf : entry.last_modified_on_hf <;>
    simp_all [tsVal, check_csv_file_should_download]

/-- Witness for C5: a present 3-byte local file with a null
`last_download` and a parseable remote timestamp is re-downloaded and
both timestamps are reset. -/
theorem invalid_timestamps_reset_and_download_witness :
    (check_csv_file_should_download true fsEx entryEx "danbooru_tags.csv").1
      = some ("Invalid timestamp format for " ++ "danbooru_tags.csv"
          ++ ". Forcing download to ensure integrity.")
    ∧ (check_csv_file_should_download true fsEx entryEx
        "danbooru_tags.csv").2.last_download = .null
    ∧ (check_csv_file_should_download true fsEx entryEx
        "danbooru_tags.csv").2.last_modified_on_hf = .null :=
  invalid_timestamps_reset_and_download fsEx entryEx "danbooru_tags.csv"
    (by decide) (Or.inl rfl)

/-! ## C10: the final retry branch is dead code -/

/-- C10: with a fixed filesystem during one evaluation, the final
retry branch of `check_csv_file_should_download` is never taken (its
guard re-tests `check_file_valid`, which the earlier guard already
required to be true), and the decision returns `none` exactly when the
metadata existed at start, the local file is present and non-empty,
both stored timestamps parse as instants, and the remote-modified
instant is not strictly later than `last_download`. -/
theorem retry_branch_unreachable (csv_meta_file_exists_at_start : Bool)
    (fs : FileSystem) (entry : FileMeta) (file_name : String) :
    retryBranchTaken csv_meta_file_exists_at_start fs entry file_name = false
    ∧ ((check_csv_file_should_download csv_meta_file_exists_at_start fs entry
          file_name).1 = none ↔
        (csv_meta_file_exists_at_start = true
          ∧ check_file_valid fs (get_file_path file_name) = true
          ∧ ∃ ld hf, entry.last_download = .valid ld
              ∧ entry.last_modified_on_hf = .valid hf ∧ hf ≤ ld)) := by
  constructor
  · cases hc : check_file_valid fs (get_file_path file_name) <;>
      cases hld : entry.last_download <;>
      cases hhf : entry.last_modified_on_hf <;>
      simp [retryBranchTaken, hc, hld, hhf]
  · cases csv_meta_file_exists_at_start with
    | false => simp [check_csv_file_should_download]
    | true =>
      cases hc : check_file_valid fs (get_file_path file_name) with
      | false => simp [check_csv_file_should_download, hc]
      | true =>
        cases hld : entry.last_download <;>
          cases hhf : entry.last_modified_on_hf <;>
          simp [check_csv_file_should_download, hc, hld, hhf, tsIsNotNone]
        case valid.valid ld hf =>
          by_cases hgt : hf > ld
          · simp [hgt]
          · simp [hgt]
            omega

/-! ## C1: the forced-check invocation -/

/-- C1: evaluating the code at the failing input.  With a dataset last
remote-checked at instant 0 and the clock at 3 days (the 7-day
cooldown has not elapsed, as the first conjunct shows), the
forced-check invocation `run_check_and_download(force_check=True)`
made by the `force_check_csv_updates` endpoint raises `TypeError` —
`run_check_and_download` declares no `force_check` parameter — so no
remote probe is performed at all, contrary to the claim that a forced
invocation performs the remote probes even within the cooldown. -/
theorem force_check_call_raises_type_error :
    performCheckDecision (.valid 0) (3 * 24 * 60 * 60) = false
    ∧ run_check_and_download_call (some true) true
        (fun _ _ => some 50) (fun _ _ => .success 10) (3 * 24 * 60 * 60)
        fsEx metaRecentCheckEx
      = .typeError "run_check_and_download() got an unexpected keyword argument" :=
  ⟨rfl, rfl⟩

/-! ## C2: `last_remote_check_timestamp` advances iff all probes succeed -/

/-- The all-succeeded flag of the probe loop is true exactly when
every entry has a (truthy) file name whose probe returned an
instant. -/
theorem checkFilesLoop_flag_true_iff (probe : String → Option Int)
    (files : List FileMeta) :
    (checkFilesLoop probe files).2 = true ↔
      ∀ e ∈ files, ∃ nm lm, fileNameTruthy e = some nm
        ∧ probe nm = some lm := by
  induction files with
  | nil => simp [checkFilesLoop]
  | cons e rest ih =>
    cases hnm : fileNameTruthy e with
    | none => simp [checkFilesLoop, hnm, ih]
    | some nm =>
      cases hpr : probe nm with
      | none => simp [checkFilesLoop, hnm, hpr, ih]
      | some lm => simp [checkFilesLoop, hnm, hpr, ih]

/-- C2: during a remote check execution (the cooldown gate passed), if
every tracked entry can be probed and every probe returns a
last-modified instant, `last_remote_check_timestamp` is set to the
invocation's now; if some entry cannot be probed or some probe returns
no instant, it keeps its prior value unchanged. -/
theorem remote_check_advances_iff_all_probes_succeed
    (probe : String → Option Int) (ds : DatasetMeta) (now_utc : Int)
    (hperf : performCheckDecision ds.last_remote_check_timestamp now_utc
      = true) :
    ((∀ e ∈ ds.csv_files, ∃ nm lm, fileNameTruthy e = some nm
        ∧ probe nm = some lm) →
      (_check_new_csv_from_hf_dataset probe ds
          now_utc).last_remote_check_timestamp = .valid now_utc)
    ∧ ((∃ e ∈ ds.csv_files, ∀ nm, fileNameTruthy e = some nm →
          probe nm = none) →
      (_check_new_csv_from_hf_dataset probe ds
          now_utc).last_remote_check_timestamp
        = ds.last_remote_check_timestamp) := by
  constructor
  · intro hall
    have hflag : (checkFilesLoop probe ds.csv_files).2 = true :=
      (checkFilesLoop_flag_true_iff probe ds.csv_files).mpr hall
    simp [_check_new_csv_from_hf_dataset, hperf, hflag]
  · intro hbad
    have hflag : (checkFilesLoop probe ds.csv_files).2 = false := by
      rcases hbad with ⟨e, he, hfail⟩
      rcases hfe : (checkFilesLoop probe ds.csv_files).2 with _ | _
      · rfl
      · exfalso
        rcases (checkFilesLoop_flag_true_iff probe ds.csv_files).mp hfe e he
          with ⟨nm, lm, hnm, hpr⟩
        rw [hfail nm hnm] at hpr
        exact Option.noConfusion hpr
    simp [_check_new_csv_from_hf_dataset, hperf, hflag]

/-- Witness for C2: a dataset with one tracked file; with an
all-succeeding probe the timestamp advances to 100, with an
all-failing probe it stays null. -/
theorem remote_check_advances_iff_all_probes_succeed_witness :
    (_check_new_csv_from_hf_dataset (fun _ => some 50) dsEx
        100).last_remote_check_timestamp = .valid 100
    ∧ (_check_new_csv_from_hf_dataset (fun _ => none) dsEx
        100).last_remote_check_timestamp
      = dsEx.last_remote_check_timestamp :=
  ⟨(remote_check_advances_iff_all_probes_succeed (fun _ => some 50) dsEx 100
      rfl).1
      (by intro e he
          simp only [dsEx, List.mem_singleton] at he
          subst he
          exact ⟨"danbooru_tags.csv", 50, rfl, rfl⟩),
    (remote_check_advances_iff_all_probes_succeed (fun _ => none) dsEx 100
      rfl).2
      ⟨{ file_name := some "danbooru_tags.csv", last_download := .null
         last_modified_on_hf := .null },
        by simp [dsEx], fun _ _ => rfl⟩⟩

/-! ## C3: cleanup after a failed transfer -/

/-- Under the HTTP client's guarantee that no more bytes are streamed
than a known Content-Length announces, the source's removal condition
for the final file coincides with the spec's notion of an
inconsistently-sized final file. -/
theorem final_remove_eq_true_iff_claim (total_size : Option Nat)
    (downloaded_size file_size : Nat)
    (hT : ∀ ts, total_size = some ts → downloaded_size ≤ ts) :
    final_file_should_remove total_size downloaded_size file_size = true
      ↔ finalFileInconsistentClaim total_size downloaded_size file_size := by
  cases total_size with
  | none =>
    simp [final_file_should_remove, finalFileInconsistentClaim]
    omega
  | some ts =>
    have hdl : downloaded_size ≤ ts := hT ts rfl
    simp [final_file_should_remove, finalFileInconsistentClaim]
    omega

/-- C3: after a transfer failure the temporary file no longer exists,
a final file that existed before the attempt is deleted exactly when
its size is inconsistent with a full download (zero bytes, smaller
than a known Content-Length, or — Content-Length unknown — smaller
than the bytes actually streamed), and no final file appears if none
existed.  The hypothesis `hT` is the HTTP client's contract that at
most Content-Length bytes are streamed when the header is present. -/
theorem transfer_failure_cleanup (fs : FileSystem) (file_name : String)
    (entry : FileMeta) (total_size : Option Nat) (downloaded_size : Nat)
    (now_utc : Int)
    (hT : ∀ ts, total_size = some ts → downloaded_size ≤ ts) :
    ((_download_file_with_progress_sync fs file_name entry
        (.failure total_size downloaded_size) now_utc).1
      (get_temp_download_path file_name) = none)
    ∧ (∀ sz, fs (get_file_path file_name) = some sz →
        ((_download_file_with_progress_sync fs file_name entry
            (.failure total_size downloaded_size) now_utc).1
          (get_file_path file_name) = none
          ↔ finalFileInconsistentClaim total_size downloaded_size sz))
    ∧ (fs (get_file_path file_name) = none →
        (_download_file_with_progress_sync fs file_name entry
            (.failure total_size downloaded_size) now_utc).1
          (get_file_path file_name) = none) := by
  have hne := file_path_ne_temp_path file_name
  have hfs1 : fsRemove fs (get_temp_download_path file_name)
      (get_file_path file_name) = fs (get_file_path file_name) := by
    simp [fsRemove, hne]
  refine ⟨?_, ?_, ?_⟩
  · simp only [_download_file_with_progress_sync]
    rw [hfs1]
    cases h : fs (get_file_path file_name) with
    | none => simp [fsRemove]
    | some sz =>
      by_cases hrem : final_file_should_remove total_size downloaded_size sz
        = true
      · simp [hrem, fsRemove]
      · simp [hrem, fsRemove]
  · intro sz hsz
    simp only [_download_file_with_progress_sync]
    rw [hfs1, hsz]
    cases hrem : final_file_should_remove total_size downloaded_size sz with
    | true =>
      simp [fsRemove, hrem,
        (final_remove_eq_true_iff_claim total_size downloaded_size sz hT).mp
          hrem]
    | false =>
      have hnotclaim :
          ¬ finalFileInconsistentClaim total_size downloaded_size sz :=
        fun hc => by
          rw [(final_remove_eq_true_iff_claim total_size downloaded_size sz
            hT).mpr hc] at hrem
          exact Bool.noConfusion hrem
      simp [fsRemove, hne, hrem, hnotclaim, hsz]
  · intro h
    simp only [_download_file_with_progress_sync]
    rw [hfs1, h]
    exact hfs1.trans h

/-- Witness for C3: a failed transfer with Content-Length 10 after 7
streamed bytes removes the stale 2-byte temp file and deletes the
3-byte final file (3 is smaller than the announced 10). -/
theorem transfer_failure_cleanup_witness :
    ((_download_file_with_progress_sync fsEx "danbooru_tags.csv" entryEx
        (.failure (some 10) 7) 5).1
      (get_temp_download_path "danbooru_tags.csv") = none)
    ∧ ((_download_file_with_progress_sync fsEx "danbooru_tags.csv" entryEx
        (.failure (some 10) 7) 5).1
      (get_file_path "danbooru_tags.csv") = none) := by
  have h := transfer_failure_cleanup fsEx "danbooru_tags.csv" entryEx
    (some 10) 7 5 (by intro ts hts; cases hts; omega)
  refine ⟨h.1, ?_⟩
  exact (h.2.1 3 (by rfl)).mpr (Or.inr (Or.inl ⟨10, rfl, by omega⟩))

/-! ## C7: monotonicity of `last_remote_check_timestamp` -/

/-- One remote check leaves `last_remote_check_timestamp` unchanged or
advances it to the invocation's now. -/
theorem check_last_cases (probe : String → Option Int) (ds : DatasetMeta)
    (now_utc : Int) :
    (_check_new_csv_from_hf_dataset probe ds
        now_utc).last_remote_check_timestamp
      = ds.last_remote_check_timestamp
    ∨ (_check_new_csv_from_hf_dataset probe ds
        now_utc).last_remote_check_timestamp = .valid now_utc := by
  by_cases hp : performCheckDecision ds.last_remote_check_timestamp now_utc
    = true
  · cases hflag : (checkFilesLoop probe ds.csv_files).2
    · left
      simp [_check_new_csv_from_hf_dataset, hp, hflag]
    · right
      simp [_check_new_csv_from_hf_dataset, hp, hflag]
  · left
    simp [_check_new_csv_from_hf_dataset, hp]

/-- The download pass does not touch the dataset's
`last_remote_check_timestamp`: after a full coordinator pass it equals
the value the remote check left. -/
theorem processDataset_last (csv_meta_file_exists_at_start : Bool)
    (probeFor : String → String → Option Int)
    (outcomeFor : String → String → TransferOutcome) (now : Int)
    (fs : FileSystem) (ds : DatasetMeta) :
    (processDataset csv_meta_file_exists_at_start probeFor outcomeFor now fs
        ds).2.last_remote_check_timestamp
      = (_check_new_csv_from_hf_dataset (probeFor ds.hf_dataset_id) ds
          now).last_remote_check_timestamp := rfl

/-- Strengthened induction for C7: over invocations with
non-decreasing clock readings (each no earlier than any instant the
initial timestamp may hold), the parseable values of the timestamp
trace are pairwise non-decreasing, and all of them dominate the
initial value. -/
theorem cycleStamps_mono (csv_meta_file_exists_at_start : Bool)
    (invs : List (Int × (String → String → Option Int) × (String → String → TransferOutcome)))
    (fs : FileSystem) (ds : DatasetMeta)
    (hNows : List.Pairwise (· ≤ ·) (invs.map (fun i => i.1)))
    (hInit : ∀ t, tsVal ds.last_remote_check_timestamp = some t →
      ∀ n ∈ invs.map (fun i => i.1), t ≤ n) :
    List.Pairwise (· ≤ ·)
      (List.filterMap tsVal
        (cycleStamps csv_meta_file_exists_at_start invs fs ds))
    ∧ ∀ v ∈ List.filterMap tsVal
        (cycleStamps csv_meta_file_exists_at_start invs fs ds),
        ∀ t, tsVal ds.last_remote_check_timestamp = some t → t ≤ v := by
  induction invs generalizing fs ds with
  | nil =>
    constructor
    · cases h : ds.last_remote_check_timestamp <;>
        simp [cycleStamps, datasetCycles, tsVal, h]
    · intro v hv t ht
      cases h : ds.last_remote_check_timestamp <;>
        simp_all [cycleStamps, datasetCycles, tsVal, h]
  | cons inv rest ih =>
    rcases hq : processDataset csv_meta_file_exists_at_start inv.2.1 inv.2.2
      inv.1 fs ds with ⟨fs1, ds1⟩
    have hcons : cycleStamps csv_meta_file_exists_at_start (inv :: rest) fs ds
        = ds.last_remote_check_timestamp ::
          cycleStamps csv_meta_file_exists_at_start rest fs1 ds1 := by
      simp [cycleStamps, datasetCycles, hq]
    have hlast : ds1.last_remote_check_timestamp
        = ds.last_remote_check_timestamp
        ∨ ds1.last_remote_check_timestamp = .valid inv.1 := by
      have hl := processDataset_last csv_meta_file_exists_at_start inv.2.1
        inv.2.2 inv.1 fs ds
      rw [hq] at hl
      rw [hl]
      exact check_last_cases (inv.2.1 ds.hf_dataset_id) ds inv.1
    rw [List.map_cons] at hNows
    rcases List.pairwise_cons.mp hNows with ⟨hHead, hRest⟩
    have hInit' : ∀ t, tsVal ds1.last_remote_check_timestamp = some t →
        ∀ n ∈ rest.map (fun i => i.1), t ≤ n := by
      intro t ht n hn
      rcases hlast with h | h
      · rw [h] at ht
        exact hInit t ht n
          (by rw [List.map_cons]; exact List.mem_cons_of_mem _ hn)
      · rw [h] at ht
        simp only [tsVal, Option.some.injEq] at ht
        subst ht
        exact hHead n hn
    have hih := ih fs1 ds1 hRest hInit'
    rw [hcons]
    cases hds : tsVal ds.last_remote_check_timestamp with
    | none =>
      have hfm : List.filterMap tsVal
          (ds.last_remote_check_timestamp ::
            cycleStamps csv_meta_file_exists_at_start rest fs1 ds1)
          = List.filterMap tsVal
            (cycleStamps csv_meta_file_exists_at_start rest fs1 ds1) := by
        simp [List.filterMap_cons, hds]
      rw [hfm]
      refine ⟨hih.1, ?_⟩
      intro v _ t ht
      exact Option.noConfusion ht
    | some t0 =>
      have hfm : List.filterMap tsVal
          (ds.last_remote_check_timestamp ::
            cycleStamps csv_meta_file_exists_at_start rest fs1 ds1)
          = t0 :: List.filterMap tsVal
            (cycleStamps csv_meta_file_exists_at_start rest fs1 ds1) := by
        simp [List.filterMap_cons, hds]
      rw [hfm]
      have hbound : ∀ v ∈ List.filterMap tsVal
          (cycleStamps csv_meta_file_exists_at_start rest fs1 ds1),
          t0 ≤ v := by
        intro v hv
        rcases hlast with h | h
        · exact hih.2 v hv t0 (by rw [h]; exact hds)
        · have ht0now : t0 ≤ inv.1 := hInit t0 hds inv.1
            (by rw [List.map_cons]; exact List.mem_cons_self _ _)

          have hvn : inv.1 ≤ v := hih.2 v hv inv.1 (by rw [h]; rfl)
          exact le_trans ht0now hvn
      refine ⟨List.pairwise_cons.mpr ⟨hbound, hih.1⟩, ?_⟩
      intro v hv t ht
      have ht' : t = t0 := by
        simpa using ht.symm
      subst ht'
      rcases List.mem_cons.mp hv with rfl | hv'
      · exact le_refl _
      · exact hbound v hv'

/-- C7: across successive coordinator invocations on a dataset whose
supplied clock readings are non-decreasing (and no earlier than any
instant the initial timestamp already holds), the parseable values
taken by `last_remote_check_timestamp` — its initial value followed by
its value after each cycle — form a non-decreasing sequence: once set,
the timestamp never goes backwards. -/
theorem last_remote_check_monotone (csv_meta_file_exists_at_start : Bool)
    (invs : List (Int × (String → String → Option Int) × (String → String → TransferOutcome)))
    (fs : FileSystem) (ds : DatasetMeta)
    (hNows : List.Pairwise (· ≤ ·) (invs.map (fun i => i.1)))
    (hInit : ∀ t, tsVal ds.last_remote_check_timestamp = some t →
      ∀ n ∈ invs.map (fun i => i.1), t ≤ n) :
    List.Pairwise (· ≤ ·)
      (List.filterMap tsVal
        (cycleStamps csv_meta_file_exists_at_start invs fs ds)) :=
  (cycleStamps_mono csv_meta_file_exists_at_start invs fs ds hNows hInit).1

/-- Witness for C7: two invocations at clocks 100 then 200 on a fresh
dataset; the recorded timestamps are pairwise non-decreasing. -/
theorem last_remote_check_monotone_witness :
    List.Pairwise (· ≤ ·)
      (List.filterMap tsVal (cycleStamps true invsEx fsEx dsEx)) :=
  last_remote_check_monotone true invsEx fsEx dsEx
    (by simp [invsEx])
    (by intro t ht; simp [dsEx, tsVal] at ht)

end AutocompletePlus
